import Mathlib

/-!
Verification of the slide-to-presentation server (src/server.js).

The development shallowly embeds the orchestration layer of the server:
the text-config normalizer, the concurrency gate, the slide renderer's
resource handling, the document assembler and the request handler of the
POST /generate-ppt endpoint. JavaScript values that flow through the
normalizer are modelled by the inductive type JVal; JavaScript objects are
association lists of string keys to values. The external engines (the
headless browser and the presentation writer) are parameters of the
embedding: a render function stands for the browser's screenshot of one
slide, and the document is modelled as the ordered list of page-building
calls issued to the presentation engine.
-/

namespace PptServer

/-- Model of the JavaScript values that can reach normalizeTextConfig via a
JSON request body (plus undefined, which destructuring produces for missing
properties). Objects are association lists; key lookup takes the first
match. -/
inductive JVal where
  | vNull : JVal
  | vUndefined : JVal
  | vBool : Bool → JVal
  | vNum : Int → JVal
  | vStr : String → JVal
  | vObj : List (String × JVal) → JVal

/-- JavaScript truthiness: null, undefined, false, 0 and the empty string
are falsy; every object is truthy. -/
def truthy : JVal → Bool
  | .vNull => false
  | .vUndefined => false
  | .vBool b => b
  | .vNum n => n != 0
  | .vStr s => s != ""
  | .vObj _ => true

/-- Nullish values are exactly null and undefined (the values skipped by
JavaScript's double-question-mark operator). -/
def nullish : JVal → Bool
  | .vNull => true
  | .vUndefined => true
  | _ => false

/-- The JavaScript nullish-coalescing operator: a double-question-mark
keeps the left operand unless it is null or undefined. -/
def coalesce (a b : JVal) : JVal :=
  if nullish a then b else a

/-- Property lookup on an object's field list, none when the key is absent. -/
def lookupF (fields : List (String × JVal)) (k : String) : Option JVal :=
  (fields.find? (fun p => p.1 == k)).map (fun p => p.2)

/-- Property access as JavaScript destructuring sees it: a missing key
reads as undefined. -/
def lookupJ (fields : List (String × JVal)) (k : String) : JVal :=
  (lookupF fields k).getD .vUndefined

/-- Spreading a value into an object literal: an object contributes its
fields, a string contributes its characters under index keys, and every
other primitive contributes nothing. -/
def spreadFields : JVal → List (String × JVal)
  | .vObj fields => fields
  | .vStr s => (s.toList.enum.map (fun p => (toString p.1, JVal.vStr (String.mk [p.2]))))
  | _ => []

/-- The object literal that spreads a, then b: on a key collision the later
spread (b) wins. The model keeps the lookup semantics of the JavaScript
result object; field order is not observed by the server. -/
def jmerge (a b : List (String × JVal)) : List (String × JVal) :=
  a.filter (fun p => (lookupF b p.1).isNone) ++ b

/-- The four keys removed by the destructuring in normalizeTextConfig; the
rest pattern collects every other field. -/
def reservedKeys : List String := ["value", "content", "text", "options"]

/-- The rest object of the destructuring: all fields whose key is not one
of value, content, text, options. -/
def restOf (fields : List (String × JVal)) : List (String × JVal) :=
  fields.filter (fun p => !(reservedKeys.contains p.1))

/-- The destructured options binding: the options property, defaulted to
the empty object when it reads as undefined. -/
def optionsOf (fields : List (String × JVal)) : JVal :=
  match lookupJ fields "options" with
  | .vUndefined => .vObj []
  | v => v

/-- The alias resolution of normalizeTextConfig: value, double-question-mark,
content, double-question-mark, text (reading the text property into
innerText). -/
def aliasValue (fields : List (String × JVal)) : JVal :=
  coalesce (coalesce (lookupJ fields "value") (lookupJ fields "content"))
    (lookupJ fields "text")

/-- The canonical normalized text: the resolved primary value and the
merged display options. -/
structure NormalizedText where
  value : JVal
  options : List (String × JVal)

/-- Embedding of normalizeTextConfig (src/server.js lines 79-95): falsy
input gives null; a string becomes a value with empty options; an object
resolves the primary value through the value/content/text aliases with
nullish coalescing, rejects a falsy resolved value, and merges the rest
fields with the explicit options sub-object (options keys win); any other
type gives null. -/
def normalizeTextConfig (text : JVal) : Option NormalizedText :=
  if truthy text = false then none
  else
    match text with
    | .vStr s => some ⟨.vStr s, []⟩
    | .vObj fields =>
      if truthy (aliasValue fields) = false then none
      else some ⟨aliasValue fields, jmerge (restOf fields) (spreadFields (optionsOf fields))⟩
    | _ => none

/-- Resolution policy named by the spec sentence of claim C1, restated with
the corrected winner rule: the first alias among value, content, text whose
property is not null and not undefined (presence, not non-emptiness,
decides). -/
def aliasFirstNonNullish (fields : List (String × JVal)) : JVal :=
  if nullish (lookupJ fields "value") = false then lookupJ fields "value"
  else if nullish (lookupJ fields "content") = false then lookupJ fields "content"
  else lookupJ fields "text"

/-- The base64 alphabet used by Buffer.toString with the base64 encoding. -/
def b64Alphabet : List Char :=
  "ABCDEFGHIJKLMNOPQRSTUVWXYZabcdefghijklmnopqrstuvwxyz0123456789+/".toList

/-- Digit of the base64 alphabet. -/
def b64Char (n : Nat) : Char := b64Alphabet.getD n 'A'

/-- Standard base64 of a byte sequence, with padding, as produced by
image.toString in buildPpt. -/
def base64Chunks : List Nat → List Char
  | [] => []
  | [a] => [b64Char (a / 4 % 64), b64Char (a % 4 * 16), '=', '=']
  | [a, b] => [b64Char (a / 4 % 64), b64Char (a % 4 * 16 + b / 16), b64Char (b % 16 * 4), '=']
  | a :: b :: c :: rest =>
    b64Char (a / 4 % 64) :: b64Char (a % 4 * 16 + b / 16) ::
      b64Char (b % 16 * 4 + c / 64) :: b64Char (c % 64) :: base64Chunks rest

/-- Base64 of a byte list as a string. -/
def base64Encode (bytes : List Nat) : String := String.mk (base64Chunks bytes)

/-- One rendered slide as collected by the endpoint: the screenshot bytes
and the untouched per-slide text input. -/
structure RenderedSlide where
  image : List Nat
  text : JVal

/-- The addImage call issued for one slide: a data url and the full-bleed
placement constants of buildPpt. -/
structure ImageCall where
  data : String
  x : Nat
  y : Nat
  w : String
  h : String

/-- One page of the assembled document: its background image call and, when
the slide carries usable text, the addText call (value and merged options). -/
structure Page where
  image : ImageCall
  textBox : Option (JVal × List (String × JVal))

/-- The default display options of the text box added by buildPpt. -/
def defaultTextOptions : List (String × JVal) :=
  [("x", .vStr "5%"), ("y", .vStr "5%"), ("w", .vStr "90%"), ("color", .vStr "363636"),
   ("fontSize", .vNum 18), ("fontFace", .vStr "Arial"), ("align", .vStr "left")]

/-- The page built for one rendered slide: a full-bleed base64 background
image anchored at the origin, and a text box exactly when
normalizeTextConfig yields a value, its options being the defaults
overridden by the normalized options. -/
def pageFor (rs : RenderedSlide) : Page :=
  { image := { data := "data:image/png;base64," ++ base64Encode rs.image,
               x := 0, y := 0, w := "100%", h := "100%" },
    textBox := (normalizeTextConfig rs.text).map
      (fun nt => (nt.value, jmerge defaultTextOptions nt.options)) }

/-- Embedding of buildPpt (src/server.js lines 97-137): one page per
rendered slide, in list order. -/
def buildPpt (slideData : List RenderedSlide) : List Page :=
  slideData.map pageFor

/-- One slide of the request payload. The css field is the slide-level css
of the example payload schema; the endpoint never reads it. -/
structure SlideReq where
  html : String
  css : JVal
  width : Int
  height : Int
  text : JVal

/-- The body of a POST /generate-ppt request: the request-level shared css
and the slide list (none models a missing or null slides property). -/
structure GenRequest where
  css : String
  slides : Option (List SlideReq)

/-- The observable response of the endpoint: either res.status(n).json with
an error message, or the streamed attachment (content type, filename,
assembled document). -/
inductive Response where
  | json : Nat → String → Response
  | file : String → String → List Page → Response

/-- Instrumentation of the calls the endpoint makes to the external
engines: one renderCall per renderSlide invocation (with the arguments the
code passes) and one assembleCall when buildPpt receives the collected
sequence. -/
inductive CallEvent where
  | renderCall : String → String → Int → Int → CallEvent
  | assembleCall : Nat → CallEvent

/-- The external browser engine as the endpoint sees it: html, css, width,
height to screenshot bytes, possibly failing. -/
def RenderFn : Type := String → String → Int → Int → Except String (List Nat)

/-- Discriminator of a failed external call. -/
def isErr {ε α : Type} : Except ε α → Bool
  | .error _ => true
  | .ok _ => false

/-- The awaited Promise.all of the endpoint: every slide is rendered with
the request-level css; if any render rejects, the whole batch rejects,
otherwise the rendered slides are collected in input order. -/
def sequenceRenders (render : RenderFn) (css : String) :
    List SlideReq → Except String (List RenderedSlide)
  | [] => .ok []
  | s :: rest =>
    match render s.html css s.width s.height with
    | .error e => .error e
    | .ok img =>
      match sequenceRenders render css rest with
      | .error e => .error e
      | .ok rs => .ok (⟨img, s.text⟩ :: rs)

/-- The content type header set on success. -/
def pptContentType : String :=
  "application/vnd.openxmlformats-officedocument.presentationml.presentation"

/-- Embedding of the POST /generate-ppt handler (src/server.js lines
161-201): reject a missing or empty slide list with 400; otherwise start
one render per slide (all render calls are issued), and either catch the
failure with the generic 500 body, or assemble and stream the document. -/
def handleGeneratePpt (render : RenderFn) (req : GenRequest) : Response × List CallEvent :=
  match req.slides with
  | none => (.json 400 "No slides provided", [])
  | some slides =>
    if slides.length = 0 then (.json 400 "No slides provided", [])
    else
      let calls := slides.map (fun s => CallEvent.renderCall s.html req.css s.width s.height)
      match sequenceRenders render req.css slides with
      | .error _ => (.json 500 "Failed to generate PPT", calls)
      | .ok rendered =>
        (.file pptContentType "report.pptx" (buildPpt rendered),
          calls ++ [CallEvent.assembleCall rendered.length])

/-- The concurrency ceiling of withConcurrency. -/
def MAX_CONCURRENCY : Nat := 4

/-- The polling interval, in milliseconds, of the admission loop. -/
def POLL_INTERVAL_MS : Nat := 40

/-- Lifecycle of one withConcurrency task: still polling for a slot,
holding a slot, or finished. -/
inductive TaskStatus where
  | waiting : TaskStatus
  | running : TaskStatus
  | done : TaskStatus
deriving DecidableEq

/-- Interleaving state of one request's batch: the shared active counter,
elapsed poll time, each task's status and the positional result slots that
Promise.all resolves with. -/
structure SysState where
  active : Nat
  timeMs : Nat
  status : List TaskStatus
  results : List (Option RenderedSlide)

/-- One event-loop turn of the batch: a waiting task polls and finds the
gate full, a waiting task acquires a free slot (active incremented), or a
running task finishes with success or failure (active decremented either
way, result slot written positionally). -/
inductive GateEvent where
  | poll : Nat → GateEvent
  | acquire : Nat → GateEvent
  | finish : Nat → Bool → GateEvent

/-- A deterministic external renderer for the interleaving model. -/
def TotalRenderFn : Type := String → String → Int → Int → List Nat

/-- The value task i resolves with: the screenshot of its own slide with
the shared css, paired with its own text input. -/
def mkRendered (render : TotalRenderFn) (css : String) (sl : SlideReq) : RenderedSlide :=
  ⟨render sl.html css sl.width sl.height, sl.text⟩

/-- Small-step semantics of withConcurrency over one batch of tasks. A
poll step is one 40ms sleep of the while loop and is enabled only while
the gate is full; an acquire step is the exit of the while loop, enabled
only when active is below the ceiling; a finish step is the try/finally
epilogue, decrementing active on success and failure alike and storing the
task's result at its own index. -/
def stepF (slides : List SlideReq) (css : String) (render : TotalRenderFn)
    (s : SysState) : GateEvent → Option SysState
  | .poll i =>
    if s.status.getD i .done = .waiting ∧ MAX_CONCURRENCY ≤ s.active then
      some { s with timeMs := s.timeMs + POLL_INTERVAL_MS }
    else none
  | .acquire i =>
    if s.status.getD i .done = .waiting ∧ s.active < MAX_CONCURRENCY then
      some { s with active := s.active + 1, status := s.status.set i .running }
    else none
  | .finish i ok =>
    if s.status.getD i .done = .running then
      match slides.get? i with
      | some sl =>
        some { s with
                active := s.active - 1,
                status := s.status.set i TaskStatus.done,
                results := s.results.set i (if ok then some (mkRendered render css sl) else none) }
      | none => none
    else none

/-- Executes a schedule of event-loop turns; none when the schedule takes a
disabled step. -/
def run (slides : List SlideReq) (css : String) (render : TotalRenderFn) :
    SysState → List GateEvent → Option SysState
  | s, [] => some s
  | s, e :: es =>
    match stepF slides css render s e with
    | some s2 => run slides css render s2 es
    | none => none

/-- The batch state right after slides.map fires the tasks: nothing
admitted, no result slots filled. -/
def initState (n : Nat) : SysState :=
  ⟨0, 0, List.replicate n .waiting, List.replicate n none⟩

/-- The browser-side resources of the render path: whether the shared
session is up, a fresh-id counter, and the ids of the contexts and pages
not yet closed. -/
structure BrowserState where
  launched : Bool
  nextId : Nat
  openContexts : List Nat
  openPages : List Nat
deriving DecidableEq

/-- Failure injection points of one renderSlide call: the session launch,
page.setContent, or page.screenshot may reject; noFail is a clean run. -/
inductive RenderFail where
  | noFail : RenderFail
  | launchFail : RenderFail
  | setContentFail : RenderFail
  | screenshotFail : RenderFail
deriving DecidableEq

/-- Embedding of renderSlide's resource behaviour (src/server.js lines
51-74): get or lazily launch the shared browser, open a fresh context,
open a fresh page in it, then set content and capture the screenshot; on
success close the page, then the context, and return the bytes. The
function mirrors the source's lack of a try/finally: when setContent or
screenshot rejects, the close calls are never reached. -/
def renderSlideRes (st : BrowserState) (fail : RenderFail) (shot : List Nat) :
    Except String (List Nat) × BrowserState :=
  if st.launched = false ∧ fail = .launchFail then
    (.error "launch failed", st)
  else
    let st1 : BrowserState := { st with launched := true }
    let cid := st1.nextId
    let st2 : BrowserState :=
      { st1 with nextId := st1.nextId + 1, openContexts := cid :: st1.openContexts }
    let pid := st2.nextId
    let st3 : BrowserState :=
      { st2 with nextId := st2.nextId + 1, openPages := pid :: st2.openPages }
    match fail with
    | .setContentFail => (.error "setContent failed", st3)
    | .screenshotFail => (.error "screenshot failed", st3)
    | _ =>
      (.ok shot,
        { st3 with openPages := st3.openPages.erase pid,
                   openContexts := st3.openContexts.erase cid })

/-- A batch of renderSlide calls over the shared browser state, one after
the other, each with its own failure injection and screenshot bytes. -/
def renderBatch (st : BrowserState) :
    List (RenderFail × List Nat) → List (Except String (List Nat)) × BrowserState
  | [] => ([], st)
  | j :: js =>
    ((renderSlideRes st j.1 j.2).1 :: (renderBatch (renderSlideRes st j.1 j.2).2 js).1,
      (renderBatch (renderSlideRes st j.1 j.2).2 js).2)

/-- The invariant of one result slot of the batch: either still unfilled,
or exactly the render of its own slide. -/
def ResultInv (render : TotalRenderFn) (css : String)
    (r : Option RenderedSlide) (sl : SlideReq) : Prop :=
  r = none ∨ r = some (mkRendered render css sl)

/-- Two payload slides that agree on everything the endpoint reads (html,
width, height, text) and may differ in their slide-level css field. -/
def eqExceptCss (a b : SlideReq) : Prop :=
  a.html = b.html ∧ a.width = b.width ∧ a.height = b.height ∧ a.text = b.text

/-- A one-slide demo request used by the concrete witnesses. -/
def demoSlide : SlideReq := ⟨"<h2>Hi</h2>", .vUndefined, 800, 600, .vUndefined⟩

/-- A deterministic demo renderer used by the concrete witnesses. -/
def demoRender : TotalRenderFn := fun _ _ _ _ => [137, 80, 78, 71]

end PptServer

namespace PptServer

theorem normalize_falsy (t : JVal) (h : truthy t = false) : normalizeTextConfig t = none := by
  unfold normalizeTextConfig
  simp [h]

theorem normalize_vStr (s : String) (h : s ≠ "") :
    normalizeTextConfig (.vStr s) = some ⟨.vStr s, []⟩ := by
  unfold normalizeTextConfig
  simp [truthy, h]

theorem normalize_vNum (n : Int) : normalizeTextConfig (.vNum n) = none := by
  unfold normalizeTextConfig
  rcases eq_or_ne n 0 with h | h <;> simp [truthy, h]

theorem normalize_vBool (b : Bool) : normalizeTextConfig (.vBool b) = none := by
  cases b <;> rfl

theorem normalize_vObj (fields : List (String × JVal)) :
    normalizeTextConfig (.vObj fields) =
      if truthy (aliasValue fields) = false then none
      else some ⟨aliasValue fields, jmerge (restOf fields) (spreadFields (optionsOf fields))⟩ :=
  rfl

theorem aliasValue_eq (fields : List (String × JVal)) :
    aliasValue fields = aliasFirstNonNullish fields := by
  unfold aliasValue aliasFirstNonNullish coalesce
  cases h1 : nullish (lookupJ fields "value") <;>
    cases h2 : nullish (lookupJ fields "content") <;> simp [h1, h2]

theorem find?_filter_sub {α : Type} (p q : α → Bool) (l : List α)
    (h : ∀ x ∈ l, p x = true → q x = true) :
    (l.filter q).find? p = l.find? p := by
  induction l with
  | nil => rfl
  | cons x xs ih =>
    have hx := h x (List.mem_cons_self x xs)
    have hxs : ∀ y ∈ xs, p y = true → q y = true :=
      fun y hy => h y (List.mem_cons_of_mem x hy)
    by_cases hq : q x = true
    · rw [List.filter_cons, if_pos hq]
      by_cases hp : p x = true
      · rw [List.find?_cons_of_pos _ hp, List.find?_cons_of_pos _ hp]
      · rw [List.find?_cons_of_neg _ hp, List.find?_cons_of_neg _ hp, ih hxs]
    · have hp : ¬ p x = true := fun hc => hq (hx hc)
      rw [List.filter_cons, if_neg hq, List.find?_cons_of_neg _ hp, ih hxs]

theorem find?_jmerge (a b : List (String × JVal)) (k : String) :
    (jmerge a b).find? (fun p => p.1 == k) =
      Option.or (b.find? (fun p => p.1 == k)) (a.find? (fun p => p.1 == k)) := by
  unfold jmerge
  rw [List.find?_append]
  cases hb : b.find? (fun p => p.1 == k) with
  | some v =>
    have hnone :
        (a.filter (fun p => (lookupF b p.1).isNone)).find? (fun p => p.1 == k) = none := by
      rw [List.find?_eq_none]
      intro x hx hpx
      have hmem := (List.mem_filter.mp hx).2
      have hk : x.1 = k := eq_of_beq hpx
      rw [hk] at hmem
      unfold lookupF at hmem
      rw [hb] at hmem
      simp at hmem
    rw [hnone]
    rfl
  | none =>
    have heq : (a.filter (fun p => (lookupF b p.1).isNone)).find? (fun p => p.1 == k) =
        a.find? (fun p => p.1 == k) := by
      apply find?_filter_sub
      intro x hx hpx
      have hk : x.1 = k := eq_of_beq hpx
      rw [hk]
      unfold lookupF
      rw [hb]
      rfl
    rw [heq]
    cases a.find? (fun p => p.1 == k) <;> rfl

theorem lookupF_jmerge (a b : List (String × JVal)) (k : String) :
    lookupF (jmerge a b) k = Option.or (lookupF b k) (lookupF a k) := by
  unfold lookupF
  rw [find?_jmerge]
  cases b.find? (fun p => p.1 == k) <;> rfl

/-- Claim C1, counterexample: for the structured input with an empty-string
value field and a Backup content field, normalizeTextConfig yields null,
not Backup: the nullish-coalescing chain stops at the present empty string
and the falsy-value check then rejects it. -/
theorem C1_counterexample :
    normalizeTextConfig (.vObj [("value", .vStr ""), ("content", .vStr "Backup")]) = none :=
  rfl

/-- Claim C1, amended: for every structured-object TextInput the primary
value is resolved by trying value, then content, then text, and the first
present (non-nullish) one wins even when it is empty; if that winner is
falsy the whole result is null, otherwise it becomes the normalized value. -/
theorem C1_alias_resolution (fields : List (String × JVal)) :
    (truthy (aliasFirstNonNullish fields) = false →
      normalizeTextConfig (.vObj fields) = none) ∧
    (truthy (aliasFirstNonNullish fields) = true →
      normalizeTextConfig (.vObj fields) =
        some ⟨aliasFirstNonNullish fields,
          jmerge (restOf fields) (spreadFields (optionsOf fields))⟩) := by
  rw [normalize_vObj, aliasValue_eq]
  constructor
  · intro h
    rw [if_pos h]
  · intro h
    rw [if_neg (by simp [h])]

/-- Claim C1 witness: a content-only object resolves to its content value. -/
theorem C1_witness :
    normalizeTextConfig (.vObj [("content", .vStr "Hi")]) = some ⟨.vStr "Hi", []⟩ :=
  (C1_alias_resolution [("content", .vStr "Hi")]).2 rfl

/-- Claim C7: normalizeTextConfig maps every falsy input to null, every
non-empty plain string s to the pair of s and empty options, and every
number or boolean to null. -/
theorem C7_normalize_cases :
    (∀ t : JVal, truthy t = false → normalizeTextConfig t = none) ∧
    (∀ s : String, s ≠ "" → normalizeTextConfig (.vStr s) = some ⟨.vStr s, []⟩) ∧
    (∀ n : Int, normalizeTextConfig (.vNum n) = none) ∧
    (∀ b : Bool, normalizeTextConfig (.vBool b) = none) :=
  ⟨normalize_falsy, normalize_vStr, normalize_vNum, normalize_vBool⟩

/-- Claim C7 witness: the number 42 and the absent input map to null, the
string Hello maps to a value with empty options. -/
theorem C7_witness :
    normalizeTextConfig (.vNum 42) = none ∧
    normalizeTextConfig (.vStr "Hello") = some ⟨.vStr "Hello", []⟩ ∧
    normalizeTextConfig .vUndefined = none ∧
    normalizeTextConfig (.vBool true) = none :=
  ⟨C7_normalize_cases.2.2.1 42,
   C7_normalize_cases.2.1 "Hello" (by decide),
   C7_normalize_cases.1 .vUndefined rfl,
   C7_normalize_cases.2.2.2 true⟩

/-- Claim C8: when a structured object normalizes to a non-null result and
carries an explicit options sub-object, every key of the result's options
resolves to the options sub-object's value when present there, and
otherwise to the top-level field outside value, content, text, options. -/
theorem C8_options_merge (fields : List (String × JVal)) (nt : NormalizedText)
    (h : normalizeTextConfig (.vObj fields) = some nt)
    (optObj : List (String × JVal)) (hopt : optionsOf fields = .vObj optObj) (k : String) :
    lookupF nt.options k = Option.or (lookupF optObj k) (lookupF (restOf fields) k) := by
  rw [normalize_vObj] at h
  by_cases hv : truthy (aliasValue fields) = false
  · rw [if_pos hv] at h
    cases h
  · rw [if_neg hv] at h
    injection h with h2
    rw [← h2, hopt]
    exact lookupF_jmerge _ _ _

/-- Claim C8 witness: the color key of an explicit options sub-object wins
over the top-level color field. -/
theorem C8_witness :
    lookupF ([("color", JVal.vStr "0000FF")]) "color" =
      Option.or (lookupF [("color", JVal.vStr "0000FF")] "color")
        (lookupF (restOf [("value", JVal.vStr "v"), ("color", JVal.vStr "FF0000"),
          ("options", JVal.vObj [("color", JVal.vStr "0000FF")])]) "color") :=
  C8_options_merge
    [("value", JVal.vStr "v"), ("color", JVal.vStr "FF0000"),
      ("options", JVal.vObj [("color", JVal.vStr "0000FF")])]
    ⟨.vStr "v", [("color", .vStr "0000FF")]⟩ rfl
    [("color", JVal.vStr "0000FF")] rfl "color"

/-- Claim C10: a non-null normalizeTextConfig result always carries a
truthy value (never the empty string, 0, false, null or undefined), so
every text box that buildPpt adds carries a truthy text value. -/
theorem C10_truthy_text :
    (∀ t nt, normalizeTextConfig t = some nt → truthy nt.value = true) ∧
    (∀ data page, page ∈ buildPpt data →
      ∀ tb, page.textBox = some tb → truthy tb.1 = true) := by
  have key : ∀ t nt, normalizeTextConfig t = some nt → truthy nt.value = true := by
    intro t nt h
    cases t with
    | vNull => rw [normalize_falsy JVal.vNull rfl] at h; cases h
    | vUndefined => rw [normalize_falsy JVal.vUndefined rfl] at h; cases h
    | vBool b => rw [normalize_vBool] at h; cases h
    | vNum n => rw [normalize_vNum] at h; cases h
    | vStr s =>
      by_cases hs : s = ""
      · subst hs
        rw [normalize_falsy (JVal.vStr "") rfl] at h
        cases h
      · rw [normalize_vStr s hs] at h
        injection h with h2
        rw [← h2]
        simp [truthy, hs]
    | vObj fields =>
      rw [normalize_vObj] at h
      by_cases hv : truthy (aliasValue fields) = false
      · rw [if_pos hv] at h
        cases h
      · rw [if_neg hv] at h
        injection h with h2
        rw [← h2]
        simpa using hv
  refine ⟨key, ?_⟩
  intro data page hp tb ht
  unfold buildPpt at hp
  obtain ⟨rs, hrs, hpage⟩ := List.mem_map.mp hp
  rw [← hpage] at ht
  unfold pageFor at ht
  simp only at ht
  rcases Option.map_eq_some'.mp ht with ⟨nt, hn, htb⟩
  rw [← htb]
  exact key _ _ hn

/-- Claim C10 witness: the string Hello normalizes to a truthy value. -/
theorem C10_witness :
    truthy (NormalizedText.mk (.vStr "Hello") []).value = true :=
  C10_truthy_text.1 (.vStr "Hello") ⟨.vStr "Hello", []⟩ rfl

end PptServer

namespace PptServer

theorem handle_some (render : RenderFn) (css : String) (slides : List SlideReq) :
    handleGeneratePpt render ⟨css, some slides⟩ =
      if slides.length = 0 then (.json 400 "No slides provided", [])
      else
        match sequenceRenders render css slides with
        | .error _ => (.json 500 "Failed to generate PPT",
            slides.map (fun s => CallEvent.renderCall s.html css s.width s.height))
        | .ok rendered =>
          (.file pptContentType "report.pptx" (buildPpt rendered),
            slides.map (fun s => CallEvent.renderCall s.html css s.width s.height) ++
              [CallEvent.assembleCall rendered.length]) :=
  rfl

theorem sequenceRenders_error (render : RenderFn) (css : String) :
    ∀ slides : List SlideReq,
      (∃ s ∈ slides, isErr (render s.html css s.width s.height) = true) →
      ∃ e, sequenceRenders render css slides = .error e := by
  intro slides
  induction slides with
  | nil =>
    rintro ⟨s, hs, -⟩
    cases hs
  | cons x xs ih =>
    rintro ⟨s, hs, herr⟩
    rcases List.mem_cons.mp hs with heq | hmem
    · cases hr : render x.html css x.width x.height with
      | error e => exact ⟨e, by simp [sequenceRenders, hr]⟩
      | ok img =>
        subst heq
        rw [hr] at herr
        simp [isErr] at herr
    · cases hr : render x.html css x.width x.height with
      | error e => exact ⟨e, by simp [sequenceRenders, hr]⟩
      | ok img =>
        obtain ⟨e, he⟩ := ih ⟨s, hmem, herr⟩
        exact ⟨e, by simp [sequenceRenders, hr, he]⟩

theorem handle_events_are_calls (render : RenderFn) (css : String)
    (slides : List SlideReq) (e : CallEvent)
    (he : e ∈ (handleGeneratePpt render ⟨css, some slides⟩).2) :
    (∃ s ∈ slides, e = CallEvent.renderCall s.html css s.width s.height) ∨
    (∃ n, e = CallEvent.assembleCall n) := by
  rw [handle_some] at he
  by_cases hz : slides.length = 0
  · rw [if_pos hz] at he
    cases he
  · rw [if_neg hz] at he
    cases hr : sequenceRenders render css slides with
    | error er =>
      rw [hr] at he
      left
      obtain ⟨s, hs, hes⟩ := List.mem_map.mp he
      exact ⟨s, hs, hes.symm⟩
    | ok rendered =>
      rw [hr] at he
      rcases List.mem_append.mp he with hmem | hmem
      · left
        obtain ⟨s, hs, hes⟩ := List.mem_map.mp hmem
        exact ⟨s, hs, hes.symm⟩
      · right
        simp at hmem
        exact ⟨rendered.length, hmem⟩

theorem sequenceRenders_congr (render : RenderFn) (css : String)
    (l1 l2 : List SlideReq) (h : List.Forall₂ eqExceptCss l1 l2) :
    sequenceRenders render css l1 = sequenceRenders render css l2 := by
  induction h with
  | nil => rfl
  | cons hxy htail ih =>
    obtain ⟨h1, h2, h3, h4⟩ := hxy
    unfold sequenceRenders
    rw [h1, h2, h3, h4, ih]

theorem calls_congr (css : String) (l1 l2 : List SlideReq)
    (h : List.Forall₂ eqExceptCss l1 l2) :
    l1.map (fun s => CallEvent.renderCall s.html css s.width s.height) =
      l2.map (fun s => CallEvent.renderCall s.html css s.width s.height) := by
  induction h with
  | nil => rfl
  | cons hxy htail ih =>
    obtain ⟨h1, h2, h3, h4⟩ := hxy
    simp only [List.map_cons, h1, h2, h3, ih]

/-- Claim C4: when at least one render of the batch fails, the endpoint
answers with the fixed generic 500 body, the assembler is never invoked,
and no document bytes are produced. -/
theorem C4_failure_is_total (render : RenderFn) (css : String) (slides : List SlideReq)
    (hfail : ∃ s ∈ slides, isErr (render s.html css s.width s.height) = true) :
    (handleGeneratePpt render ⟨css, some slides⟩).1 = .json 500 "Failed to generate PPT" ∧
    (∀ n, CallEvent.assembleCall n ∉ (handleGeneratePpt render ⟨css, some slides⟩).2) ∧
    (∀ ct fn doc, (handleGeneratePpt render ⟨css, some slides⟩).1 ≠ .file ct fn doc) := by
  obtain ⟨e, he⟩ := sequenceRenders_error render css slides hfail
  have hnil : slides ≠ [] := by
    obtain ⟨s, hs, -⟩ := hfail
    exact List.ne_nil_of_mem hs
  have hlen : ¬ slides.length = 0 := by
    simpa [List.length_eq_zero] using hnil
  rw [handle_some, if_neg hlen, he]
  refine ⟨rfl, ?_, ?_⟩
  · intro n hmem
    obtain ⟨s, hs, hes⟩ := List.mem_map.mp hmem
    cases hes
  · intro ct fn doc h
    cases h

/-- Claim C4 witness: a request whose only render fails gets the generic
500 error body. -/
theorem C4_witness :
    (handleGeneratePpt (fun _ _ _ _ => Except.error "boom") ⟨"", some [demoSlide]⟩).1 =
      Response.json 500 "Failed to generate PPT" :=
  (C4_failure_is_total (fun _ _ _ _ => Except.error "boom") "" [demoSlide]
    ⟨demoSlide, List.mem_cons_self _ _, rfl⟩).1

/-- Claim C6: a request with a missing slide list, and one with an empty
slide list, both get the 400 client error immediately, and neither the
renderer nor the assembler is invoked (the call log stays empty). -/
theorem C6_validation (render : RenderFn) (css : String) :
    handleGeneratePpt render ⟨css, none⟩ = (.json 400 "No slides provided", []) ∧
    handleGeneratePpt render ⟨css, some []⟩ = (.json 400 "No slides provided", []) :=
  ⟨rfl, rfl⟩

/-- Claim C9: two requests that agree on everything except the slide-level
css fields produce identical responses and identical engine calls, and
every render call of a request carries the request-level shared css. -/
theorem C9_slide_css_ignored (render : RenderFn) (css : String) (l1 l2 : List SlideReq)
    (h : List.Forall₂ eqExceptCss l1 l2) :
    handleGeneratePpt render ⟨css, some l1⟩ = handleGeneratePpt render ⟨css, some l2⟩ ∧
    (∀ e ∈ (handleGeneratePpt render ⟨css, some l1⟩).2,
      ∀ ht c w hh, e = CallEvent.renderCall ht c w hh → c = css) := by
  constructor
  · rw [handle_some, handle_some, List.Forall₂.length_eq h,
      sequenceRenders_congr render css l1 l2 h, calls_congr css l1 l2 h]
  · intro e he ht c w hh heq
    rcases handle_events_are_calls render css l1 e he with ⟨s, hs, hes⟩ | ⟨n, hn⟩
    · rw [heq] at hes
      injection hes
    · rw [heq] at hn
      cases hn

/-- Claim C9 witness: changing only a slide-level css field leaves the
response and the call log unchanged. -/
theorem C9_witness :
    handleGeneratePpt (fun _ _ _ _ => Except.ok [1]) ⟨"", some [⟨"x", .vStr "A", 1, 2, .vUndefined⟩]⟩ =
      handleGeneratePpt (fun _ _ _ _ => Except.ok [1]) ⟨"", some [⟨"x", .vStr "B", 1, 2, .vUndefined⟩]⟩ :=
  (C9_slide_css_ignored (fun _ _ _ _ => Except.ok [1]) "" _ _
    (List.forall₂_cons.mpr ⟨⟨rfl, rfl, rfl, rfl⟩, List.Forall₂.nil⟩)).1

end PptServer

namespace PptServer

theorem stepF_active_le (slides : List SlideReq) (css : String) (render : TotalRenderFn)
    (s s2 : SysState) (e : GateEvent) (h : stepF slides css render s e = some s2)
    (hs : s.active ≤ MAX_CONCURRENCY) : s2.active ≤ MAX_CONCURRENCY := by
  cases e with
  | poll i =>
    simp only [stepF] at h
    split at h
    · injection h with h2
      rw [← h2]
      exact hs
    · cases h
  | acquire i =>
    simp only [stepF] at h
    split at h
    · rename_i hcond
      injection h with h2
      rw [← h2]
      exact hcond.2
    · cases h
  | finish i ok =>
    simp only [stepF] at h
    split at h
    · cases hg : slides.get? i with
      | some sl =>
        rw [hg] at h
        injection h with h2
        rw [← h2]
        exact le_trans (Nat.sub_le _ _) hs
      | none =>
        rw [hg] at h
        cases h
    · cases h

theorem run_active_le (slides : List SlideReq) (css : String) (render : TotalRenderFn) :
    ∀ (events : List GateEvent) (s0 s : SysState), s0.active ≤ MAX_CONCURRENCY →
      run slides css render s0 events = some s → s.active ≤ MAX_CONCURRENCY := by
  intro events
  induction events with
  | nil =>
    intro s0 s h0 hr
    unfold run at hr
    injection hr with h2
    rw [← h2]
    exact h0
  | cons e es ih =>
    intro s0 s h0 hr
    unfold run at hr
    cases hst : stepF slides css render s0 e with
    | some s1 =>
      rw [hst] at hr
      exact ih s1 s (stepF_active_le slides css render s0 s1 e hst h0) hr
    | none =>
      rw [hst] at hr
      cases hr

theorem forall₂_set_of_get? {α β : Type} {R : α → β → Prop} :
    ∀ {l1 : List α} {l2 : List β}, List.Forall₂ R l1 l2 →
      ∀ (i : Nat) (v : α), (∀ y, l2.get? i = some y → R v y) →
      List.Forall₂ R (l1.set i v) l2 := by
  intro l1 l2 h
  induction h with
  | nil =>
    intro i v _
    exact List.Forall₂.nil
  | cons hxy htail ih =>
    intro i v hv
    cases i with
    | zero =>
      exact List.Forall₂.cons (hv _ rfl) htail
    | succ j =>
      exact List.Forall₂.cons hxy (ih j v (fun y hy => hv y (by rw [List.get?_cons_succ]; exact hy)))

theorem stepF_results (slides : List SlideReq) (css : String) (render : TotalRenderFn)
    (s s2 : SysState) (e : GateEvent) (h : stepF slides css render s e = some s2)
    (hr : List.Forall₂ (ResultInv render css) s.results slides) :
    List.Forall₂ (ResultInv render css) s2.results slides := by
  cases e with
  | poll i =>
    simp only [stepF] at h
    split at h
    · injection h with h2
      rw [← h2]
      exact hr
    · cases h
  | acquire i =>
    simp only [stepF] at h
    split at h
    · injection h with h2
      rw [← h2]
      exact hr
    · cases h
  | finish i ok =>
    simp only [stepF] at h
    split at h
    · cases hg : slides.get? i with
      | some sl =>
        rw [hg] at h
        injection h with h2
        rw [← h2]
        refine forall₂_set_of_get? hr i _ ?_
        intro y hy
        rw [hg] at hy
        injection hy with hy2
        rw [← hy2]
        cases ok
        · exact Or.inl rfl
        · exact Or.inr rfl
      | none =>
        rw [hg] at h
        cases h
    · cases h

theorem run_results (slides : List SlideReq) (css : String) (render : TotalRenderFn) :
    ∀ (events : List GateEvent) (s0 s : SysState),
      List.Forall₂ (ResultInv render css) s0.results slides →
      run slides css render s0 events = some s →
      List.Forall₂ (ResultInv render css) s.results slides := by
  intro events
  induction events with
  | nil =>
    intro s0 s h0 hr
    unfold run at hr
    injection hr with h2
    rw [← h2]
    exact h0
  | cons e es ih =>
    intro s0 s h0 hr
    unfold run at hr
    cases hst : stepF slides css render s0 e with
    | some s1 =>
      rw [hst] at hr
      exact ih s1 s (stepF_results slides css render s0 s1 e hst h0) hr
    | none =>
      rw [hst] at hr
      cases hr

theorem forall₂_replicate_none (render : TotalRenderFn) (css : String) :
    ∀ slides : List SlideReq,
      List.Forall₂ (ResultInv render css) (List.replicate slides.length none) slides := by
  intro slides
  induction slides with
  | nil => exact List.Forall₂.nil
  | cons x xs ih => exact List.Forall₂.cons (Or.inl rfl) ih

theorem forall₂_all_some (render : TotalRenderFn) (css : String) :
    ∀ {rs : List (Option RenderedSlide)} {slides : List SlideReq},
      List.Forall₂ (ResultInv render css) rs slides →
      (∀ r ∈ rs, r.isSome = true) →
      rs = slides.map (fun sl => some (mkRendered render css sl)) := by
  intro rs slides h
  induction h with
  | nil =>
    intro _
    rfl
  | cons hxy htail ih =>
    intro hall
    have hx := hall _ (List.mem_cons_self _ _)
    rcases hxy with hn | hs
    · rw [hn] at hx
      cases hx
    · rw [hs, ih (fun r hr => hall r (List.mem_cons_of_mem _ hr))]
      rfl

theorem reduceOption_map_some {α β : Type} (l : List α) (f : α → β) :
    (l.map (fun x => some (f x))).reduceOption = l.map f := by
  induction l with
  | nil => rfl
  | cons x xs ih => simp [List.reduceOption_cons_of_some, ih]

/-- Claim C2: whatever schedule the event loop takes, once a run of the
batch has filled every result slot, the collected sequence is exactly the
input slides' renders in input order, so the assembled document has one
page per input slide and its page at position i is built from the render
of input slide i, independent of completion order. -/
theorem C2_order_preserved (slides : List SlideReq) (css : String) (render : TotalRenderFn)
    (events : List GateEvent) (s : SysState) (_hne : slides ≠ [])
    (hrun : run slides css render (initState slides.length) events = some s)
    (hok : ∀ r ∈ s.results, r.isSome = true) :
    s.results.reduceOption = slides.map (mkRendered render css) ∧
    buildPpt s.results.reduceOption =
      slides.map (fun sl => pageFor (mkRendered render css sl)) ∧
    (buildPpt s.results.reduceOption).length = slides.length := by
  have hinv : List.Forall₂ (ResultInv render css) s.results slides :=
    run_results slides css render events (initState slides.length) s
      (forall₂_replicate_none render css slides) hrun
  have heq : s.results = slides.map (fun sl => some (mkRendered render css sl)) :=
    forall₂_all_some render css hinv hok
  have hred : s.results.reduceOption = slides.map (mkRendered render css) := by
    rw [heq, reduceOption_map_some]
  refine ⟨hred, ?_, ?_⟩
  · rw [hred]
    unfold buildPpt
    rw [List.map_map]
    rfl
  · rw [hred]
    unfold buildPpt
    simp

/-- Claim C2 witness: a one-slide batch run to completion collects exactly
that slide's render. -/
theorem C2_witness :
    (⟨0, 0, [TaskStatus.done],
        [some (mkRendered demoRender "" demoSlide)]⟩ : SysState).results.reduceOption =
      [demoSlide].map (mkRendered demoRender "") :=
  (C2_order_preserved [demoSlide] "" demoRender [.acquire 0, .finish 0 true]
    ⟨0, 0, [TaskStatus.done], [some (mkRendered demoRender "" demoSlide)]⟩
    (by simp) rfl (by simp)).1

/-- Claim C3: over every schedule from the initial batch state the shared
active counter never exceeds MAX_CONCURRENCY (4); a task is admitted
(incrementing active) only when active is below the ceiling; a full gate
forces a 40ms poll step that leaves active unchanged; and a finishing
task decrements active whether it succeeded or failed. -/
theorem C3_gate_bound (slides : List SlideReq) (css : String) (render : TotalRenderFn) :
    (∀ events s, run slides css render (initState slides.length) events = some s →
      s.active ≤ MAX_CONCURRENCY) ∧
    (∀ (s : SysState) (i : Nat) (s2 : SysState),
      stepF slides css render s (.acquire i) = some s2 →
      s.active < MAX_CONCURRENCY ∧ s2.active = s.active + 1) ∧
    (∀ (s : SysState) (i : Nat) (s2 : SysState),
      stepF slides css render s (.poll i) = some s2 →
      MAX_CONCURRENCY ≤ s.active ∧ s2.active = s.active ∧
        s2.timeMs = s.timeMs + POLL_INTERVAL_MS) ∧
    (∀ (s : SysState) (i : Nat) (ok : Bool) (s2 : SysState),
      stepF slides css render s (.finish i ok) = some s2 →
      s2.active = s.active - 1) := by
  refine ⟨?_, ?_, ?_, ?_⟩
  · intro events s hrun
    exact run_active_le slides css render events (initState slides.length) s
      (Nat.zero_le _) hrun
  · intro s i s2 h
    simp only [stepF] at h
    split at h
    · rename_i hcond
      injection h with h2
      exact ⟨hcond.2, by rw [← h2]⟩
    · cases h
  · intro s i s2 h
    simp only [stepF] at h
    split at h
    · rename_i hcond
      injection h with h2
      exact ⟨hcond.2, by rw [← h2], by rw [← h2]⟩
    · cases h
  · intro s i ok s2 h
    simp only [stepF] at h
    split at h
    · cases hg : slides.get? i with
      | some sl =>
        rw [hg] at h
        injection h with h2
        rw [← h2]
      | none =>
        rw [hg] at h
        cases h
    · cases h

/-- Claim C3 witness: a completed one-slide run keeps active within the
ceiling, and a concrete admission from the initial state increments active
from 0 to 1 under the ceiling 4. -/
theorem C3_witness :
    (⟨0, 0, [TaskStatus.done],
        [some (mkRendered demoRender "" demoSlide)]⟩ : SysState).active ≤ MAX_CONCURRENCY ∧
    ((initState 1).active < MAX_CONCURRENCY ∧
      (⟨1, 0, [TaskStatus.running], [(none : Option RenderedSlide)]⟩ : SysState).active =
        (initState 1).active + 1) :=
  ⟨(C3_gate_bound [demoSlide] "" demoRender).1 [.acquire 0, .finish 0 true]
      ⟨0, 0, [TaskStatus.done], [some (mkRendered demoRender "" demoSlide)]⟩ rfl,
    (C3_gate_bound [demoSlide] "" demoRender).2.1 (initState 1) 0
      ⟨1, 0, [TaskStatus.running], [none]⟩ rfl⟩

end PptServer

namespace PptServer

theorem renderSlideRes_noFail_state (st : BrowserState) (shot : List Nat) :
    (renderSlideRes st RenderFail.noFail shot).2 =
      ⟨true, st.nextId + 1 + 1, st.openContexts, st.openPages⟩ := by
  simp [renderSlideRes, List.erase_cons_head]

theorem renderSlideRes_noFail_ok (st : BrowserState) (shot : List Nat) :
    (renderSlideRes st RenderFail.noFail shot).1 = .ok shot := by
  simp [renderSlideRes]

theorem renderSlideRes_launch_ok_state (st : BrowserState) (shot : List Nat)
    (hl : st.launched = true) :
    (renderSlideRes st RenderFail.launchFail shot).2 =
      ⟨true, st.nextId + 1 + 1, st.openContexts, st.openPages⟩ := by
  simp [renderSlideRes, hl, List.erase_cons_head]

theorem renderSlideRes_setContent_state (st : BrowserState) (shot : List Nat) :
    (renderSlideRes st RenderFail.setContentFail shot).2 =
      ⟨true, st.nextId + 1 + 1, st.nextId :: st.openContexts, (st.nextId + 1) :: st.openPages⟩ := by
  simp [renderSlideRes]

theorem renderSlideRes_screenshot_state (st : BrowserState) (shot : List Nat) :
    (renderSlideRes st RenderFail.screenshotFail shot).2 =
      ⟨true, st.nextId + 1 + 1, st.nextId :: st.openContexts, (st.nextId + 1) :: st.openPages⟩ := by
  simp [renderSlideRes]

theorem renderSlideRes_setContent_err (st : BrowserState) (shot : List Nat) :
    (renderSlideRes st RenderFail.setContentFail shot).1 = .error "setContent failed" := by
  simp [renderSlideRes]

theorem renderSlideRes_screenshot_err (st : BrowserState) (shot : List Nat) :
    (renderSlideRes st RenderFail.screenshotFail shot).1 = .error "screenshot failed" := by
  simp [renderSlideRes]

theorem renderBatch_cons_snd (st : BrowserState) (j : RenderFail × List Nat)
    (js : List (RenderFail × List Nat)) :
    (renderBatch st (j :: js)).2 = (renderBatch (renderSlideRes st j.1 j.2).2 js).2 :=
  rfl

/-- Claim C5, counterexample: a renderSlide invocation whose screenshot
call rejects finishes without closing the page and the context it created
(there is no try/finally in renderSlide): from a fresh browser state the
invocation rejects, yet context 0 and page 1 are still open afterwards. -/
theorem C5_counterexample :
    isErr (renderSlideRes ⟨false, 0, [], []⟩ RenderFail.screenshotFail []).1 = true ∧
    (renderSlideRes ⟨false, 0, [], []⟩ RenderFail.screenshotFail []).2.openContexts = [0] ∧
    (renderSlideRes ⟨false, 0, [], []⟩ RenderFail.screenshotFail []).2.openPages = [1] :=
  ⟨rfl, rfl, rfl⟩

/-- Claim C5, amended: every renderSlide invocation that returns
successfully has closed exactly the page and the context it created (the
open sets return to their prior value) and keeps the shared browser
session alive; an invocation that fails at setContent or screenshot,
however, leaves its own context and page open; consequently, in a batch
with no launch failures the open-context count grows by exactly the
number of failing renders: every successful render's context is cleaned
up and only failing renders leak. -/
theorem C5_resource_release :
    (∀ (st : BrowserState) (fail : RenderFail) (shot bytes : List Nat),
      (renderSlideRes st fail shot).1 = .ok bytes →
      (renderSlideRes st fail shot).2.openContexts = st.openContexts ∧
      (renderSlideRes st fail shot).2.openPages = st.openPages ∧
      (renderSlideRes st fail shot).2.launched = true) ∧
    (∀ (st : BrowserState) (fail : RenderFail) (shot : List Nat),
      fail = RenderFail.setContentFail ∨ fail = RenderFail.screenshotFail →
      (renderSlideRes st fail shot).2.openContexts = st.nextId :: st.openContexts ∧
      (renderSlideRes st fail shot).2.openPages = (st.nextId + 1) :: st.openPages) ∧
    (∀ (st : BrowserState) (js : List (RenderFail × List Nat)),
      (∀ j ∈ js, j.1 ≠ RenderFail.launchFail) →
      (renderBatch st js).2.openContexts.length =
        st.openContexts.length +
          (js.filter (fun j => j.1 != RenderFail.noFail)).length) := by
  refine ⟨?_, ?_, ?_⟩
  · intro st fail shot bytes h
    cases fail with
    | noFail =>
      rw [renderSlideRes_noFail_state]
      exact ⟨rfl, rfl, rfl⟩
    | launchFail =>
      cases hl : st.launched with
      | false =>
        exfalso
        unfold renderSlideRes at h
        rw [if_pos ⟨hl, rfl⟩] at h
        cases h
      | true =>
        rw [renderSlideRes_launch_ok_state st shot hl]
        exact ⟨rfl, rfl, rfl⟩
    | setContentFail =>
      rw [renderSlideRes_setContent_err] at h
      cases h
    | screenshotFail =>
      rw [renderSlideRes_screenshot_err] at h
      cases h
  · intro st fail shot hf
    rcases hf with rfl | rfl
    · rw [renderSlideRes_setContent_state]
      exact ⟨rfl, rfl⟩
    · rw [renderSlideRes_screenshot_state]
      exact ⟨rfl, rfl⟩
  · intro st js
    induction js generalizing st with
    | nil =>
      intro _
      simp [renderBatch]
    | cons j js ih =>
      intro hnl
      have hj := hnl j (List.mem_cons_self _ _)
      have hrest : ∀ x ∈ js, x.1 ≠ RenderFail.launchFail :=
        fun x hx => hnl x (List.mem_cons_of_mem _ hx)
      rw [renderBatch_cons_snd]
      cases hf : j.1 with
      | noFail =>
        rw [renderSlideRes_noFail_state, ih _ hrest]
        simp [List.filter_cons, hf]
      | launchFail =>
        exact absurd hf hj
      | setContentFail =>
        rw [renderSlideRes_setContent_state, ih _ hrest]
        simp [List.filter_cons, hf]
        omega
      | screenshotFail =>
        rw [renderSlideRes_screenshot_state, ih _ hrest]
        simp [List.filter_cons, hf]
        omega

/-- Claim C5 witness: a clean render from a fresh browser state leaves no
open context or page and keeps the session launched. -/
theorem C5_witness :
    (renderSlideRes ⟨false, 0, [], []⟩ RenderFail.noFail [5]).2.openContexts =
      (⟨false, 0, [], []⟩ : BrowserState).openContexts ∧
    (renderSlideRes ⟨false, 0, [], []⟩ RenderFail.noFail [5]).2.openPages =
      (⟨false, 0, [], []⟩ : BrowserState).openPages ∧
    (renderSlideRes ⟨false, 0, [], []⟩ RenderFail.noFail [5]).2.launched = true :=
  C5_resource_release.1 ⟨false, 0, [], []⟩ RenderFail.noFail [5] [5] rfl

end PptServer
